import Mathlib

/-!
Verification of the camera-player controller of the Hyrule Map Explorer
(src/cmd/main.go), as a shallow embedding.

Modelling conventions:
  - Go float64 values (player coordinates) are modelled as exact rationals.
    Every float operation the program performs on them - adding the constant
    speed 3.0, halving an integer-valued width, subtracting, comparing - is
    exact in binary floating point at the magnitudes involved, so the
    rational model agrees with the float semantics.
  - Go int values are modelled as Int (no overflow occurs at these sizes).
  - The Go conversion int(f) truncates toward zero; goTrunc below.
  - The ebiten background image is represented by its dimensions
    (Bounds().Dx(), Bounds().Dy()) when present; the audio player by a
    Boolean recording whether it is present.
-/

namespace Hyrule

attribute [local semireducible] Rat.mul Rat.inv Rat.add Rat.sub

/-- Go conversion int(f) applied to a float64 value: truncation toward zero. -/
def goTrunc (q : ℚ) : Int := if q < 0 then ⌈q⌉ else ⌊q⌋

/-- Snapshot of the held keys sampled by Game.Update via ebiten.IsKeyPressed. -/
structure Input where
  keyRight : Bool
  keyLeft : Bool
  keyDown : Bool
  keyUp : Bool
  keyW : Bool
  keyA : Bool
  keyS : Bool
  keyD : Bool
deriving DecidableEq, Repr

/-- The input snapshot with no key held. -/
def noInput : Input :=
  { keyRight := false, keyLeft := false, keyDown := false, keyUp := false,
    keyW := false, keyA := false, keyS := false, keyD := false }

/-- The same snapshot with the four arrow keys released (WASD unchanged). -/
def dropArrows (i : Input) : Input :=
  { i with keyRight := false, keyLeft := false, keyDown := false, keyUp := false }

/-- The Game struct of main.go: viewport top-left (vx, vy), tile size,
player position (px, py) and size, background dimensions when loaded,
and whether an audio player is present. -/
@[ext]
structure Game where
  bg : Option (Int × Int)
  vx : Int
  vy : Int
  tileW : Int
  tileH : Int
  px : ℚ
  py : ℚ
  playerW : Int
  playerH : Int
  audioPlayer : Bool
deriving DecidableEq, Repr

/-- Player coordinate clamping for one axis (main.go lines 87-108): clamp
below at 0, then compute the float of the int bound m = bgDim - playerDim,
replace it by 0 when negative, and clamp above at it, in source order. -/
def clampPlayerCoord (p : ℚ) (m : Int) : ℚ :=
  let p1 := if p < 0 then 0 else p
  let mq : ℚ := (m : ℚ)
  let mq1 := if mq < 0 then 0 else mq
  if p1 > mq1 then mq1 else p1

/-- Desired viewport coordinate before clamping (main.go lines 113-114),
for either axis: int(p + playerDim/2 - tileDim/2), Go int() truncating
toward zero. -/
def desiredV (p : ℚ) (pw tw : Int) : Int :=
  goTrunc (p + (pw : ℚ) / 2 - (tw : ℚ) / 2)

/-- Viewport clamping (main.go lines 116-127): lower bound 0 first, then
the upper bound lim = bgDim - tileDim, in source order (so when lim is
negative the final value is the negative lim). -/
def clampViewport (d lim : Int) : Int :=
  let d1 := if d < 0 then 0 else d
  if d1 > lim then lim else d1

/-- Arrow-key pan applied to vx (main.go lines 56-61), moveDelta = 1. -/
def arrowVx (g : Game) (i : Input) : Int :=
  let a := if i.keyRight then g.vx + 1 * g.tileW else g.vx
  if i.keyLeft then a - 1 * g.tileW else a

/-- Arrow-key pan applied to vy (main.go lines 62-67), moveDelta = 1. -/
def arrowVy (g : Game) (i : Input) : Int :=
  let a := if i.keyDown then g.vy + 1 * g.tileH else g.vy
  if i.keyUp then a - 1 * g.tileH else a

/-- WASD move applied to px (main.go lines 76-81), playerSpeed = 3.0. -/
def wasdPx (g : Game) (i : Input) : ℚ :=
  let a := if i.keyA then g.px - 3 else g.px
  if i.keyD then a + 3 else a

/-- WASD move applied to py (main.go lines 70-75), playerSpeed = 3.0. -/
def wasdPy (g : Game) (i : Input) : ℚ :=
  let a := if i.keyW then g.py - 3 else g.py
  if i.keyS then a + 3 else a

/-- Game.Update (main.go lines 46-132). The audio branch (48-51) touches no
tracked field. When the background is present, the arrow-key pan increments
(lines 56-67) are overwritten by the committed viewport assignment (lines
128-129), so the some branch commits only the recomputed values; when it is
absent, the arrow increments and raw WASD moves are the final values. -/
def update (g : Game) (i : Input) : Game :=
  match g.bg with
  | none => { g with vx := arrowVx g i, vy := arrowVy g i,
                     px := wasdPx g i, py := wasdPy g i }
  | some (bw, bh) =>
    let px2 := clampPlayerCoord (wasdPx g i) (bw - g.playerW)
    let py2 := clampPlayerCoord (wasdPy g i) (bh - g.playerH)
    { g with px := px2, py := py2,
             vx := clampViewport (desiredV px2 g.playerW g.tileW) (bw - g.tileW),
             vy := clampViewport (desiredV py2 g.playerH g.tileH) (bh - g.tileH) }

/-- One Update call per element of the list, in order. -/
def updateSeq (g : Game) (l : List Input) : Game := l.foldl update g

/-- Scale and centering offsets computed by Game.Draw (main.go lines
146-158), over exact rationals. -/
structure DrawTransform where
  scale : ℚ
  dx : ℚ
  dy : ℚ
deriving DecidableEq, Repr

/-- The draw transform: scale = max(sw/vw, sh/vh) covers the screen,
dx and dy center the scaled viewport. -/
def computeDrawTransform (sw sh vw vh : Int) : DrawTransform :=
  let sx : ℚ := (sw : ℚ) / (vw : ℚ)
  let sy : ℚ := (sh : ℚ) / (vh : ℚ)
  let scale := max sx sy
  { scale := scale,
    dx := ((sw : ℚ) - (vw : ℚ) * scale) / 2,
    dy := ((sh : ℚ) - (vh : ℚ) * scale) / 2 }

/-- Player screen x position computed in Game.Draw (main.go line 194). -/
def playerScreenX (g : Game) (scale dx : ℚ) : ℚ :=
  (g.px - (g.vx : ℚ)) * scale + dx

/-- Player screen y position computed in Game.Draw (main.go line 195). -/
def playerScreenY (g : Game) (scale dy : ℚ) : ℚ :=
  (g.py - (g.vy : ℚ)) * scale + dy

/-- The numbers Game.Draw computes and feeds to the engine draw calls. -/
structure DrawOutput where
  transform : DrawTransform
  bgPosX : ℚ
  bgPosY : ℚ
  playerX : ℚ
  playerY : ℚ
deriving DecidableEq, Repr

/-- Game.Draw (main.go lines 134-214): returns the game state together with
the computed draw quantities (none when bg is nil, line 135). The source
assigns no Game field in Draw - the only mutations are to the screen and to
a locally created shadow image - so the state component is g itself. -/
def draw (g : Game) (sw sh : Int) : Game × Option DrawOutput :=
  match g.bg with
  | none => (g, none)
  | some _ =>
    let t := computeDrawTransform sw sh g.tileW g.tileH
    (g, some { transform := t,
               bgPosX := -(g.vx : ℚ) * t.scale + t.dx,
               bgPosY := -(g.vy : ℚ) * t.scale + t.dy,
               playerX := playerScreenX g t.scale t.dx,
               playerY := playerScreenY g t.scale t.dy })

/-- Column (or row) count of the tile grid (main.go lines 233-240) for one
dimension d >= 0: ceil-style division (d + 512 - 1) / 512 followed by the
lower guard. Go integer division on these nonnegative values is Nat
division. -/
def deriveCols (d : Nat) : Nat :=
  let c := (d + 512 - 1) / 512
  if c < 1 then 1 else c

/-- Tile size for one dimension (main.go lines 241-248): d / cols with
fallback to the full dimension when the quotient is not positive. -/
def deriveTile (d : Nat) : Nat :=
  let t := d / deriveCols d
  if t ≤ 0 then d else t

/-- The world translated by an integer vector (d, e): player and viewport
shifted together. -/
def translateWorld (g : Game) (d e : Int) : Game :=
  { g with px := g.px + (d : ℚ), py := g.py + (e : ℚ),
           vx := g.vx + d, vy := g.vy + e }

/-- The same game with the audio player marked absent. -/
def stripAudio (g : Game) : Game := { g with audioPlayer := false }

/-- Outcome of main's startup (main.go lines 220-316): either a fatal
log.Fatalf exit or a running game handed to ebiten.RunGame. -/
inductive StartupResult where
  | fatal (msg : String)
  | running (g : Game)
deriving DecidableEq

/-- Whether a fallible audio step succeeded. -/
def audioOk (r : Except String Unit) : Bool :=
  match r with
  | .ok _ => true
  | .error _ => false

/-- The game main constructs before the audio section (main.go lines
249-285), from the background dimensions. The window size is the fixed
1024x768 set at line 250, so minScreenDim = 768 and playerSize =
int(768*0.03) = 23 (exact in float64 up to the truncation, which yields 23
for the float product 23.039999999999999147 as well as for the exact 23.04
used here). Initial player position centers the player in the first tile
using Go integer division. -/
def initialGame (bw bh : Nat) : Game :=
  let tileW : Int := (deriveTile bw : Int)
  let tileH : Int := (deriveTile bh : Int)
  let playerSize0 := goTrunc ((768 : ℚ) * (3 / 100))
  let playerSize := if playerSize0 < 1 then 1 else playerSize0
  { bg := some ((bw : Int), (bh : Int)), vx := 0, vy := 0,
    tileW := tileW, tileH := tileH,
    px := ((tileW / 2 - playerSize / 2 : Int) : ℚ),
    py := ((tileH / 2 - playerSize / 2 : Int) : ℚ),
    playerW := playerSize, playerH := playerSize, audioPlayer := false }

/-- Startup control flow of main (main.go lines 220-316): background load
failure is fatal (line 225), sprite load failure is fatal (line 270); each
of the three audio steps - opening the file (line 290), decoding (line 295),
creating the player (line 299) - logs a warning on failure and leaves the
audio player absent, and only when all three succeed is it installed. -/
def mainStartup (bgLoad : Except String (Nat × Nat))
    (spriteLoad : Except String (Nat × Nat))
    (musicOpen musicDecode playerCreate : Except String Unit) : StartupResult :=
  match bgLoad with
  | .error e => .fatal ("failed to load background image: " ++ e)
  | .ok (bw, bh) =>
    match spriteLoad with
    | .error e => .fatal ("failed to load player sprite: " ++ e)
    | .ok _ =>
      let g := initialGame bw bh
      match musicOpen with
      | .error _ => .running g
      | .ok _ =>
        match musicDecode with
        | .error _ => .running g
        | .ok _ =>
          match playerCreate with
          | .error _ => .running g
          | .ok _ => .running { g with audioPlayer := true }

/-! Concrete states used to instantiate and to refute claims. -/

/-- A 100x100 map with a 50-pixel tile and the 23-pixel player inside
bounds; a generic well-formed state. -/
def gW1 : Game :=
  { bg := some (100, 100), vx := 0, vy := 0, tileW := 50, tileH := 50,
    px := 10, py := 10, playerW := 23, playerH := 23, audioPlayer := false }

/-- A 1000x1000 map with 500-pixel tiles and the 23-pixel player at
(100, 100); a generic well-formed state. -/
def gW2 : Game :=
  { bg := some (1000, 1000), vx := 0, vy := 0, tileW := 500, tileH := 500,
    px := 100, py := 100, playerW := 23, playerH := 23, audioPlayer := false }

/-- A state whose desired viewport lands exactly on a half-integer:
px = 2, playerW = 1, tileW = 2 give px + playerW/2 - tileW/2 = 3/2,
which Go truncates to 1 while rounding gives 2. -/
def gHalf : Game :=
  { bg := some (100, 100), vx := 0, vy := 0, tileW := 2, tileH := 2,
    px := 2, py := 2, playerW := 1, playerH := 1, audioPlayer := false }

/-- A state with a player sprite (4 px) larger than the tile (1 px) and a
fractional player position 17/4, violating no hypothesis of the literal C2
claim: after an update the player center 25/4 is outside the one-pixel
viewport although the player is pinned to no edge. -/
def gTiny : Game :=
  { bg := some (10, 10), vx := 0, vy := 0, tileW := 1, tileH := 2,
    px := 17 / 4, py := 1 / 2, playerW := 4, playerH := 0, audioPlayer := false }

/-- A state that violates the committed viewport relationship: the player
sits at the origin but the viewport was set to 7, so one no-input update
moves the viewport. -/
def gStale : Game :=
  { bg := some (100, 100), vx := 7, vy := 0, tileW := 10, tileH := 10,
    px := 0, py := 0, playerW := 2, playerH := 2, audioPlayer := false }

/-! Basic facts about the truncation and the two clamps. -/

theorem goTrunc_le {q : ℚ} (h : 0 ≤ q) : (goTrunc q : ℚ) ≤ q := by
  unfold goTrunc
  rw [if_neg (not_lt.2 h)]
  exact Int.floor_le q

theorem lt_goTrunc_add_one {q : ℚ} (h : 0 ≤ q) : q < goTrunc q + 1 := by
  unfold goTrunc
  rw [if_neg (not_lt.2 h)]
  exact_mod_cast Int.lt_floor_add_one q

theorem goTrunc_nonneg {q : ℚ} (h : 0 ≤ q) : 0 ≤ goTrunc q := by
  unfold goTrunc
  rw [if_neg (not_lt.2 h)]
  exact Int.floor_nonneg.2 h

theorem goTrunc_nonpos {q : ℚ} (h : q ≤ 0) : goTrunc q ≤ 0 := by
  unfold goTrunc
  split_ifs with h1
  · exact Int.ceil_le.2 (by exact_mod_cast h)
  · exact Int.floor_nonpos h

theorem le_goTrunc_of_le {q : ℚ} {z : Int} (h0 : 0 ≤ q) (h : (z : ℚ) ≤ q) :
    z ≤ goTrunc q := by
  unfold goTrunc
  rw [if_neg (not_lt.2 h0)]
  exact Int.le_floor.2 h

theorem clampPlayerCoord_nonneg (p : ℚ) (m : Int) : 0 ≤ clampPlayerCoord p m := by
  unfold clampPlayerCoord
  dsimp only
  split_ifs <;> linarith

theorem clampPlayerCoord_le (p : ℚ) (m : Int) :
    clampPlayerCoord p m ≤ ((max 0 m : Int) : ℚ) := by
  unfold clampPlayerCoord
  dsimp only
  push_cast
  rw [max_def]
  split_ifs <;> linarith

theorem clampPlayerCoord_eq_self {p : ℚ} {m : Int} (h0 : 0 ≤ p)
    (h1 : p ≤ ((max 0 m : Int) : ℚ)) : clampPlayerCoord p m = p := by
  unfold clampPlayerCoord
  dsimp only
  push_cast at h1
  rw [max_def] at h1
  split_ifs at h1 ⊢ <;> first | rfl | linarith

theorem clampViewport_nonneg {d lim : Int} (h : 0 ≤ lim) :
    0 ≤ clampViewport d lim := by
  unfold clampViewport
  dsimp only
  split_ifs <;> omega

theorem clampViewport_le {d lim : Int} (h : 0 ≤ lim) :
    clampViewport d lim ≤ lim := by
  unfold clampViewport
  dsimp only
  split_ifs <;> omega

/-! Structural lemmas about Update. -/

theorem update_none {g : Game} (i : Input) (hbg : g.bg = none) :
    update g i = { g with vx := arrowVx g i, vy := arrowVy g i,
                          px := wasdPx g i, py := wasdPy g i } := by
  simp only [update, hbg]

theorem update_some {g : Game} (i : Input) {bw bh : Int}
    (hbg : g.bg = some (bw, bh)) :
    update g i =
      { g with
        px := clampPlayerCoord (wasdPx g i) (bw - g.playerW),
        py := clampPlayerCoord (wasdPy g i) (bh - g.playerH),
        vx := clampViewport
          (desiredV (clampPlayerCoord (wasdPx g i) (bw - g.playerW))
            g.playerW g.tileW) (bw - g.tileW),
        vy := clampViewport
          (desiredV (clampPlayerCoord (wasdPy g i) (bh - g.playerH))
            g.playerH g.tileH) (bh - g.tileH) } := by
  simp only [update, hbg]

theorem update_bg (g : Game) (i : Input) : (update g i).bg = g.bg := by
  rcases hbg : g.bg with _ | ⟨bw, bh⟩
  · rw [update_none i hbg]; exact hbg
  · rw [update_some i hbg]; exact hbg


theorem update_tileW (g : Game) (i : Input) : (update g i).tileW = g.tileW := by
  rcases hbg : g.bg with _ | ⟨bw, bh⟩
  · rw [update_none i hbg]
  · rw [update_some i hbg]

theorem update_tileH (g : Game) (i : Input) : (update g i).tileH = g.tileH := by
  rcases hbg : g.bg with _ | ⟨bw, bh⟩
  · rw [update_none i hbg]
  · rw [update_some i hbg]

theorem update_playerW (g : Game) (i : Input) : (update g i).playerW = g.playerW := by
  rcases hbg : g.bg with _ | ⟨bw, bh⟩
  · rw [update_none i hbg]
  · rw [update_some i hbg]

theorem update_playerH (g : Game) (i : Input) : (update g i).playerH = g.playerH := by
  rcases hbg : g.bg with _ | ⟨bw, bh⟩
  · rw [update_none i hbg]
  · rw [update_some i hbg]

theorem update_audio (g : Game) (i : Input) : (update g i).audioPlayer = g.audioPlayer := by
  rcases hbg : g.bg with _ | ⟨bw, bh⟩
  · rw [update_none i hbg]
  · rw [update_some i hbg]

theorem update_some_px {g : Game} (i : Input) {bw bh : Int}
    (hbg : g.bg = some (bw, bh)) :
    (update g i).px = clampPlayerCoord (wasdPx g i) (bw - g.playerW) := by
  rw [update_some i hbg]

theorem update_some_py {g : Game} (i : Input) {bw bh : Int}
    (hbg : g.bg = some (bw, bh)) :
    (update g i).py = clampPlayerCoord (wasdPy g i) (bh - g.playerH) := by
  rw [update_some i hbg]

theorem update_some_vx {g : Game} (i : Input) {bw bh : Int}
    (hbg : g.bg = some (bw, bh)) :
    (update g i).vx =
      clampViewport (desiredV ((update g i).px) g.playerW g.tileW) (bw - g.tileW) := by
  rw [update_some i hbg]

theorem update_some_vy {g : Game} (i : Input) {bw bh : Int}
    (hbg : g.bg = some (bw, bh)) :
    (update g i).vy =
      clampViewport (desiredV ((update g i).py) g.playerH g.tileH) (bh - g.tileH) := by
  rw [update_some i hbg]

theorem update_px_bounds {g : Game} (i : Input) {bw bh : Int}
    (hbg : g.bg = some (bw, bh)) :
    0 ≤ (update g i).px ∧ (update g i).px ≤ ((max 0 (bw - g.playerW) : Int) : ℚ) := by
  rw [update_some_px i hbg]
  exact ⟨clampPlayerCoord_nonneg _ _, clampPlayerCoord_le _ _⟩

theorem update_py_bounds {g : Game} (i : Input) {bw bh : Int}
    (hbg : g.bg = some (bw, bh)) :
    0 ≤ (update g i).py ∧ (update g i).py ≤ ((max 0 (bh - g.playerH) : Int) : ℚ) := by
  rw [update_some_py i hbg]
  exact ⟨clampPlayerCoord_nonneg _ _, clampPlayerCoord_le _ _⟩

/-- The committed viewport coordinate for one axis, as a function of the
already-clamped player coordinate p: it stays in [0, bw - tw], keeps the
player center p + pw/2 inside [v, v + tw], and is pinned to an edge exactly
when the player coordinate is pinned to the matching edge.  Requires the
player not larger than the tile on this axis, a tile of at least 2 pixels,
and a tile not larger than the background. -/
theorem viewport_axis {p : ℚ} {pw tw bw : Int}
    (hp0 : 0 ≤ p) (hp1 : p ≤ ((bw - pw : Int) : ℚ))
    (hpw0 : 0 ≤ pw) (hpwtw : pw ≤ tw) (htw2 : 2 ≤ tw) (htwbw : tw ≤ bw) :
    0 ≤ clampViewport (desiredV p pw tw) (bw - tw) ∧
    clampViewport (desiredV p pw tw) (bw - tw) ≤ bw - tw ∧
    (clampViewport (desiredV p pw tw) (bw - tw) : ℚ) ≤ p + (pw : ℚ) / 2 ∧
    p + (pw : ℚ) / 2 ≤ (clampViewport (desiredV p pw tw) (bw - tw) : ℚ) + (tw : ℚ) ∧
    (p = 0 → clampViewport (desiredV p pw tw) (bw - tw) = 0) ∧
    (p = ((bw - pw : Int) : ℚ) → clampViewport (desiredV p pw tw) (bw - tw) = bw - tw) := by
  have hlim : 0 ≤ bw - tw := by omega
  have cpw : (0 : ℚ) ≤ (pw : ℚ) := by exact_mod_cast hpw0
  have cpwtw : (pw : ℚ) ≤ (tw : ℚ) := by exact_mod_cast hpwtw
  have ctw2 : (2 : ℚ) ≤ (tw : ℚ) := by exact_mod_cast htw2
  have ctwbw : (tw : ℚ) ≤ (bw : ℚ) := by exact_mod_cast htwbw
  have hp1' : p ≤ (bw : ℚ) - (pw : ℚ) := by push_cast at hp1; linarith
  obtain ⟨q, hqdef⟩ : ∃ q : ℚ, q = p + (pw : ℚ) / 2 - (tw : ℚ) / 2 := ⟨_, rfl⟩
  obtain ⟨d, hddef⟩ : ∃ d : Int, d = goTrunc q := ⟨_, rfl⟩
  have hdv : desiredV p pw tw = d := by rw [hddef, hqdef]; rfl
  have hv : clampViewport d (bw - tw) =
      if d < 0 then 0 else if d > bw - tw then bw - tw else d := by
    unfold clampViewport
    dsimp only
    split_ifs <;> omega
  rw [hdv, hv]
  by_cases hd0 : d < 0
  · -- desired negative: committed value 0
    rw [if_pos hd0]
    have hqneg : q < 0 := by
      by_contra hc
      push_neg at hc
      exact absurd (goTrunc_nonneg hc) (by rw [← hddef]; omega)
    refine ⟨le_refl 0, hlim, by push_cast; linarith, by push_cast; linarith, fun _ => rfl, ?_⟩
    intro hpin
    exfalso
    rw [hpin] at hqdef
    push_cast at hqdef
    have : (0 : ℚ) ≤ q := by rw [hqdef]; linarith
    linarith
  · push_neg at hd0
    by_cases hdlim : d > bw - tw
    · -- desired beyond the right edge: committed value bw - tw
      rw [if_neg (not_lt.2 hd0), if_pos hdlim]
      have hd1 : 1 ≤ d := by omega
      have hq0 : 0 ≤ q := by
        by_contra hc
        push_neg at hc
        exact absurd (goTrunc_nonpos hc.le) (by rw [← hddef]; omega)
      have hdle : (d : ℚ) ≤ q := by rw [hddef]; exact goTrunc_le hq0
      have hdlim' : ((bw : ℚ) - (tw : ℚ)) + 1 ≤ (d : ℚ) := by
        have : bw - tw + 1 ≤ d := hdlim
        exact_mod_cast this
      refine ⟨by omega, le_refl _, ?_, ?_, ?_, fun _ => rfl⟩
      · push_cast
        linarith
      · push_cast
        linarith
      · intro hp
        exfalso
        rw [hp] at hqdef
        have : q ≤ 0 := by rw [hqdef]; linarith
        linarith
    · -- desired within bounds: committed value d itself
      push_neg at hdlim
      rw [if_neg (not_lt.2 hd0), if_neg (not_lt.2 hdlim)]
      by_cases hq0 : 0 ≤ q
      · have hdle : (d : ℚ) ≤ q := by rw [hddef]; exact goTrunc_le hq0
        have hdlt : q < (d : ℚ) + 1 := by rw [hddef]; exact lt_goTrunc_add_one hq0
        refine ⟨hd0, hdlim, by linarith, by linarith, ?_, ?_⟩
        · intro hp
          rw [hp] at hqdef
          have hqle : q ≤ 0 := by rw [hqdef]; linarith
          have : (d : ℚ) ≤ 0 := by linarith
          have : d ≤ 0 := by exact_mod_cast this
          omega
        · intro hpin
          rw [hpin] at hqdef
          push_cast at hqdef
          have hql : ((bw - tw : Int) : ℚ) ≤ q := by
            push_cast
            rw [hqdef]
            linarith
          have : bw - tw ≤ d := by rw [hddef]; exact le_goTrunc_of_le hq0 hql
          omega
      · push_neg at hq0
        have hdle0 : d ≤ 0 := by rw [hddef]; exact goTrunc_nonpos hq0.le
        have hdeq : d = 0 := by omega
        rw [hdeq]
        refine ⟨le_refl 0, hlim, by push_cast; linarith, by push_cast; linarith,
          fun _ => rfl, ?_⟩
        intro hpin
        exfalso
        rw [hpin] at hqdef
        push_cast at hqdef
        have : (0 : ℚ) ≤ q := by rw [hqdef]; linarith
        linarith

theorem wasdPx_noInput (g : Game) : wasdPx g noInput = g.px := rfl

theorem wasdPy_noInput (g : Game) : wasdPy g noInput = g.py := rfl

theorem arrowVx_noInput (g : Game) : arrowVx g noInput = g.vx := rfl

theorem arrowVy_noInput (g : Game) : arrowVy g noInput = g.vy := rfl

theorem updateSeq_bounds (l : List Input) :
    ∀ (g : Game) (i : Input) (bw bh : Int), g.bg = some (bw, bh) →
      0 ≤ (updateSeq g (i :: l)).px ∧
      (updateSeq g (i :: l)).px ≤ ((max 0 (bw - g.playerW) : Int) : ℚ) ∧
      0 ≤ (updateSeq g (i :: l)).py ∧
      (updateSeq g (i :: l)).py ≤ ((max 0 (bh - g.playerH) : Int) : ℚ) := by
  induction l with
  | nil =>
    intro g i bw bh hbg
    have hx := update_px_bounds i hbg
    have hy := update_py_bounds i hbg
    exact ⟨hx.1, hx.2, hy.1, hy.2⟩
  | cons j l ih =>
    intro g i bw bh hbg
    have hstep : updateSeq g (i :: j :: l) = updateSeq (update g i) (j :: l) := rfl
    have hbg' : (update g i).bg = some (bw, bh) := by rw [update_bg]; exact hbg
    have h := ih (update g i) j bw bh hbg'
    rw [update_playerW, update_playerH] at h
    rw [hstep]
    exact h

/-- C1: for every state with the player inside [0, bgWidth - playerW] x
[0, bgHeight - playerH] (clamped at 0 when the sprite is larger than the
map) and any nonempty sequence of inputs, after the updates the player
position is again inside those bounds; quantifying over all nonempty
sequences covers the state after each intermediate call. -/
theorem c1_player_stays_in_bounds (g : Game) (bw bh : Int) (i : Input)
    (l : List Input) (hbg : g.bg = some (bw, bh))
    (hx0 : 0 ≤ g.px) (hx1 : g.px ≤ ((max 0 (bw - g.playerW) : Int) : ℚ))
    (hy0 : 0 ≤ g.py) (hy1 : g.py ≤ ((max 0 (bh - g.playerH) : Int) : ℚ)) :
    0 ≤ (updateSeq g (i :: l)).px ∧
    (updateSeq g (i :: l)).px ≤ ((max 0 (bw - g.playerW) : Int) : ℚ) ∧
    0 ≤ (updateSeq g (i :: l)).py ∧
    (updateSeq g (i :: l)).py ≤ ((max 0 (bh - g.playerH) : Int) : ℚ) :=
  updateSeq_bounds l g i bw bh hbg

theorem c1_player_stays_in_bounds_witness :
    0 ≤ (updateSeq gW1 (noInput :: [])).px ∧
    (updateSeq gW1 (noInput :: [])).px ≤ ((max 0 (100 - gW1.playerW) : Int) : ℚ) ∧
    0 ≤ (updateSeq gW1 (noInput :: [])).py ∧
    (updateSeq gW1 (noInput :: [])).py ≤ ((max 0 (100 - gW1.playerH) : Int) : ℚ) :=
  c1_player_stays_in_bounds gW1 100 100 noInput [] (by decide)
    (by decide) (by decide) (by decide) (by decide)

/-- C5: with the background present, an update with any combination of
arrow keys held produces exactly the state produced with the same WASD keys
and no arrow key held - the viewport committed from the player position
overrides the arrow-key pan on the same frame. -/
theorem c5_arrow_keys_noop (g : Game) (i : Input) (bw bh : Int)
    (hbg : g.bg = some (bw, bh)) :
    update g i = update g (dropArrows i) := by
  rw [update_some i hbg, update_some (dropArrows i) hbg]
  rfl

theorem c5_arrow_keys_noop_witness :
    update gW1 { noInput with keyRight := true, keyUp := true, keyD := true } =
      update gW1 (dropArrows { noInput with keyRight := true, keyUp := true, keyD := true }) :=
  c5_arrow_keys_noop gW1 _ 100 100 (by decide)

/-- C3 (amended): with the background present, the committed viewport is
the clamp of goTrunc (playerX + playerW/2 - tileW/2) - Go int() conversion,
truncation toward zero - applied to the post-clamp player position, and
analogously for y; the spec's "round" is wrong where the fractional part
makes rounding and truncation differ. -/
theorem c3_desired_viewport_truncates (g : Game) (i : Input) (bw bh : Int)
    (hbg : g.bg = some (bw, bh)) :
    (update g i).vx =
      clampViewport (goTrunc ((update g i).px + (g.playerW : ℚ) / 2 - (g.tileW : ℚ) / 2))
        (bw - g.tileW) ∧
    (update g i).vy =
      clampViewport (goTrunc ((update g i).py + (g.playerH : ℚ) / 2 - (g.tileH : ℚ) / 2))
        (bh - g.tileH) :=
  ⟨update_some_vx i hbg, update_some_vy i hbg⟩

theorem c3_desired_viewport_truncates_witness :
    (update gW1 noInput).vx =
      clampViewport (goTrunc ((update gW1 noInput).px + (gW1.playerW : ℚ) / 2 - (gW1.tileW : ℚ) / 2))
        (100 - gW1.tileW) ∧
    (update gW1 noInput).vy =
      clampViewport (goTrunc ((update gW1 noInput).py + (gW1.playerH : ℚ) / 2 - (gW1.tileH : ℚ) / 2))
        (100 - gW1.tileH) :=
  c3_desired_viewport_truncates gW1 noInput 100 100 (by decide)

/-- C3 counterexample: at gHalf the pre-clamp desired value is 3/2; the
code commits the truncation 1 while the rounding the claim asserts gives 2,
and neither clamp interferes, so the committed viewport differs from the
claimed one. -/
theorem c3_rounding_counterexample :
    (update gHalf noInput).px + (gHalf.playerW : ℚ) / 2 - (gHalf.tileW : ℚ) / 2 = 3 / 2 ∧
    (update gHalf noInput).vx = 1 ∧
    round ((update gHalf noInput).px + (gHalf.playerW : ℚ) / 2 - (gHalf.tileW : ℚ) / 2) = 2 ∧
    (update gHalf noInput).vx ≠
      clampViewport (round ((update gHalf noInput).px + (gHalf.playerW : ℚ) / 2 - (gHalf.tileW : ℚ) / 2))
        (100 - gHalf.tileW) := by
  refine ⟨?_, ?_, ?_, ?_⟩ <;> decide

/-- C8: the player screen position computed in Draw depends only on the
difference between player and viewport world positions: translating both by
the same integer vector leaves it unchanged, for every scale and offset. -/
theorem c8_camera_relative_invariance (g : Game) (d e : Int) (scale dx dy : ℚ) :
    playerScreenX (translateWorld g d e) scale dx = playerScreenX g scale dx ∧
    playerScreenY (translateWorld g d e) scale dy = playerScreenY g scale dy := by
  unfold playerScreenX playerScreenY translateWorld
  constructor <;> (push_cast; ring)

/-- C10 (implicit): Draw does not modify the world state - the state
component it returns is the unchanged game, every field included; only
Update mutates the state. -/
theorem c10_draw_preserves_state (g : Game) (sw sh : Int) :
    (draw g sw sh).1 = g := by
  unfold draw
  rcases g.bg with _ | p
  · rfl
  · rfl

theorem update_noInput_none {g : Game} (hbg : g.bg = none) :
    update g noInput = g := by
  rw [update_none noInput hbg]
  rfl

/-- C7 (amended): the no-input update is idempotent - a second no-input
update returns exactly the state of the first, for every state.  (On an
arbitrary state a single no-input update may still move the viewport, since
the viewport is recomputed from the player position; the claim as stated,
that one no-input update leaves every state unchanged, fails on such
states.) -/
theorem c7_no_input_idempotent (g : Game) :
    update (update g noInput) noInput = update g noInput := by
  rcases hbg : g.bg with _ | ⟨bw, bh⟩
  · rw [update_noInput_none hbg, update_noInput_none hbg]
  · have hbg' : (update g noInput).bg = some (bw, bh) := by rw [update_bg]; exact hbg
    have hpx2 : (update (update g noInput) noInput).px = (update g noInput).px := by
      rw [update_some_px noInput hbg', wasdPx_noInput, update_playerW]
      rw [update_some_px noInput hbg]
      exact clampPlayerCoord_eq_self (clampPlayerCoord_nonneg _ _) (clampPlayerCoord_le _ _)
    have hpy2 : (update (update g noInput) noInput).py = (update g noInput).py := by
      rw [update_some_py noInput hbg', wasdPy_noInput, update_playerH]
      rw [update_some_py noInput hbg]
      exact clampPlayerCoord_eq_self (clampPlayerCoord_nonneg _ _) (clampPlayerCoord_le _ _)
    have hvx2 : (update (update g noInput) noInput).vx = (update g noInput).vx := by
      rw [update_some_vx noInput hbg', hpx2, update_playerW, update_tileW,
        update_some_vx noInput hbg]
    have hvy2 : (update (update g noInput) noInput).vy = (update g noInput).vy := by
      rw [update_some_vy noInput hbg', hpy2, update_playerH, update_tileH,
        update_some_vy noInput hbg]
    exact Game.ext (by rw [update_bg]) hvx2 hvy2 (by rw [update_tileW])
      (by rw [update_tileH]) hpx2 hpy2 (by rw [update_playerW])
      (by rw [update_playerH]) (by rw [update_audio])

/-- C7 counterexample: on gStale - player at the origin, viewport left at
7 - a single no-input update moves the viewport to 0, so the no-input
update does not leave every state unchanged. -/
theorem c7_identity_counterexample :
    (update gStale noInput).vx = 0 ∧ gStale.vx = 7 ∧ update gStale noInput ≠ gStale := by
  refine ⟨?_, ?_, ?_⟩ <;> decide

theorem update_stripAudio (g : Game) (i : Input) :
    update (stripAudio g) i = stripAudio (update g i) := by
  rcases hbg : g.bg with _ | ⟨bw, bh⟩
  · have h1 : (stripAudio g).bg = none := hbg
    rw [update_none i h1, update_none i hbg]
    rfl
  · have h1 : (stripAudio g).bg = some (bw, bh) := hbg
    rw [update_some i h1, update_some i hbg]
    rfl

/-- C9: background or sprite load failure is fatal with the matching
message; failure of any of the three audio steps yields the same running
game with the audio player absent (so the committed state is independent of
the audio outcome); and both Update and Draw behave identically with and
without the audio player. -/
theorem c9_startup_error_handling :
    (∀ (e : String) (s : Except String (Nat × Nat)) (a1 a2 a3 : Except String Unit),
      mainStartup (.error e) s a1 a2 a3 =
        .fatal ("failed to load background image: " ++ e)) ∧
    (∀ (p : Nat × Nat) (e : String) (a1 a2 a3 : Except String Unit),
      mainStartup (.ok p) (.error e) a1 a2 a3 =
        .fatal ("failed to load player sprite: " ++ e)) ∧
    (∀ (bw bh : Nat) (sp : Nat × Nat) (a1 a2 a3 : Except String Unit),
      mainStartup (.ok (bw, bh)) (.ok sp) a1 a2 a3 =
        .running { initialGame bw bh with
                   audioPlayer := audioOk a1 && audioOk a2 && audioOk a3 }) ∧
    (∀ (g : Game) (i : Input),
      update (stripAudio g) i = stripAudio (update g i)) ∧
    (∀ (g : Game) (sw sh : Int),
      (draw (stripAudio g) sw sh).2 = (draw g sw sh).2) := by
  refine ⟨?_, ?_, ?_, update_stripAudio, ?_⟩
  · intro e s a1 a2 a3
    rfl
  · intro p e a1 a2 a3
    rcases p with ⟨bw, bh⟩
    rfl
  · intro bw bh sp a1 a2 a3
    rcases a1 with e1 | u1 <;> rcases a2 with e2 | u2 <;> rcases a3 with e3 | u3 <;> rfl
  · intro g sw sh
    unfold draw stripAudio
    rcases g.bg with _ | p
    · rfl
    · rfl

/-- C2 (amended): with the background present, a tile that fits the
background, is at least 2 pixels on each axis, and is at least as large as
the (nonnegative) player sprite, every update commits a viewport inside
[0, bgWidth - tileW] x [0, bgHeight - tileH]; when the player is pinned to
no edge its center lies inside the viewport rectangle, and a player pinned
to an edge pins the viewport to the matching edge. -/
theorem c2_viewport_invariant (g : Game) (i : Input) (bw bh : Int)
    (hbg : g.bg = some (bw, bh))
    (hpw0 : 0 ≤ g.playerW) (hph0 : 0 ≤ g.playerH)
    (hpwtw : g.playerW ≤ g.tileW) (hphth : g.playerH ≤ g.tileH)
    (htw2 : 2 ≤ g.tileW) (hth2 : 2 ≤ g.tileH)
    (htwbw : g.tileW ≤ bw) (hthbh : g.tileH ≤ bh) :
    (0 ≤ (update g i).vx ∧ (update g i).vx ≤ bw - g.tileW) ∧
    (0 ≤ (update g i).vy ∧ (update g i).vy ≤ bh - g.tileH) ∧
    (((update g i).px ≠ 0 ∧ (update g i).px ≠ ((bw - g.playerW : Int) : ℚ) ∧
      (update g i).py ≠ 0 ∧ (update g i).py ≠ ((bh - g.playerH : Int) : ℚ)) →
      ((update g i).vx : ℚ) ≤ (update g i).px + (g.playerW : ℚ) / 2 ∧
      (update g i).px + (g.playerW : ℚ) / 2 ≤ ((update g i).vx : ℚ) + (g.tileW : ℚ) ∧
      ((update g i).vy : ℚ) ≤ (update g i).py + (g.playerH : ℚ) / 2 ∧
      (update g i).py + (g.playerH : ℚ) / 2 ≤ ((update g i).vy : ℚ) + (g.tileH : ℚ)) ∧
    ((update g i).px = 0 → (update g i).vx = 0) ∧
    ((update g i).px = ((bw - g.playerW : Int) : ℚ) → (update g i).vx = bw - g.tileW) ∧
    ((update g i).py = 0 → (update g i).vy = 0) ∧
    ((update g i).py = ((bh - g.playerH : Int) : ℚ) → (update g i).vy = bh - g.tileH) := by
  have hx0 := (update_px_bounds i hbg).1
  have hx1 := (update_px_bounds i hbg).2
  have hy0 := (update_py_bounds i hbg).1
  have hy1 := (update_py_bounds i hbg).2
  have hmaxx : max 0 (bw - g.playerW) = bw - g.playerW := max_eq_right (by omega)
  have hmaxy : max 0 (bh - g.playerH) = bh - g.playerH := max_eq_right (by omega)
  rw [hmaxx] at hx1
  rw [hmaxy] at hy1
  have hax := viewport_axis hx0 hx1 hpw0 hpwtw htw2 htwbw
  have hay := viewport_axis hy0 hy1 hph0 hphth hth2 hthbh
  rw [update_some_vx i hbg, update_some_vy i hbg]
  obtain ⟨ha1, ha2, ha3, ha4, ha5, ha6⟩ := hax
  obtain ⟨hb1, hb2, hb3, hb4, hb5, hb6⟩ := hay
  exact ⟨⟨ha1, ha2⟩, ⟨hb1, hb2⟩, fun _ => ⟨ha3, ha4, hb3, hb4⟩, ha5, ha6, hb5, hb6⟩

theorem c2_viewport_invariant_witness :
    (0 ≤ (update gW2 noInput).vx ∧ (update gW2 noInput).vx ≤ 1000 - gW2.tileW) ∧
    (0 ≤ (update gW2 noInput).vy ∧ (update gW2 noInput).vy ≤ 1000 - gW2.tileH) ∧
    (((update gW2 noInput).px ≠ 0 ∧ (update gW2 noInput).px ≠ ((1000 - gW2.playerW : Int) : ℚ) ∧
      (update gW2 noInput).py ≠ 0 ∧ (update gW2 noInput).py ≠ ((1000 - gW2.playerH : Int) : ℚ)) →
      ((update gW2 noInput).vx : ℚ) ≤ (update gW2 noInput).px + (gW2.playerW : ℚ) / 2 ∧
      (update gW2 noInput).px + (gW2.playerW : ℚ) / 2 ≤ ((update gW2 noInput).vx : ℚ) + (gW2.tileW : ℚ) ∧
      ((update gW2 noInput).vy : ℚ) ≤ (update gW2 noInput).py + (gW2.playerH : ℚ) / 2 ∧
      (update gW2 noInput).py + (gW2.playerH : ℚ) / 2 ≤ ((update gW2 noInput).vy : ℚ) + (gW2.tileH : ℚ)) ∧
    ((update gW2 noInput).px = 0 → (update gW2 noInput).vx = 0) ∧
    ((update gW2 noInput).px = ((1000 - gW2.playerW : Int) : ℚ) → (update gW2 noInput).vx = 1000 - gW2.tileW) ∧
    ((update gW2 noInput).py = 0 → (update gW2 noInput).vy = 0) ∧
    ((update gW2 noInput).py = ((1000 - gW2.playerH : Int) : ℚ) → (update gW2 noInput).vy = 1000 - gW2.tileH) :=
  c2_viewport_invariant gW2 noInput 1000 1000 (by decide) (by decide) (by decide)
    (by decide) (by decide) (by decide) (by decide) (by decide) (by decide)

/-- C2 counterexample: gTiny satisfies every hypothesis the claim states
(background present, tileW and tileH at most the background size), yet
after a no-input update the player is pinned to no edge while its center
x = 25/4 lies outside the viewport rectangle, whose right edge is
vx + tileW = 6.  The claim needs the extra hypotheses playerW <= tileW and
2 <= tileW, both violated here. -/
theorem c2_center_counterexample :
    gTiny.bg = some (10, 10) ∧ gTiny.tileW ≤ 10 ∧ gTiny.tileH ≤ 10 ∧
    (update gTiny noInput).px ≠ 0 ∧
    (update gTiny noInput).px ≠ ((10 - gTiny.playerW : Int) : ℚ) ∧
    (update gTiny noInput).py ≠ 0 ∧
    (update gTiny noInput).py ≠ ((10 - gTiny.playerH : Int) : ℚ) ∧
    ¬ ((update gTiny noInput).px + (gTiny.playerW : ℚ) / 2 ≤
        ((update gTiny noInput).vx : ℚ) + (gTiny.tileW : ℚ)) := by
  decide

/-- C4 (amended): for screen 1024x768 and tile 500x500 the transform is
scale = 2.048 = 256/125, offsetX = 0 (exact cover on the x axis, the axis
of the larger ratio) and offsetY = -128, the only nonzero offset, on the
non-covering axis - the spec names the axes the wrong way around; in
general scale = max(sw/tileW, sh/tileH), offsetX = (sw - tileW*scale)/2 and
offsetY = (sh - tileH*scale)/2, both offsets are nonpositive, and the
offset of the covering axis is exactly 0, over exact rationals. -/
theorem c4_draw_transform :
    (computeDrawTransform 1024 768 500 500).scale = 256 / 125 ∧
    (computeDrawTransform 1024 768 500 500).dx = 0 ∧
    (computeDrawTransform 1024 768 500 500).dy = -128 ∧
    (∀ sw sh tw th : Int, 0 < tw → 0 < th →
      (computeDrawTransform sw sh tw th).scale =
        max ((sw : ℚ) / (tw : ℚ)) ((sh : ℚ) / (th : ℚ)) ∧
      (computeDrawTransform sw sh tw th).dx =
        ((sw : ℚ) - (tw : ℚ) * (computeDrawTransform sw sh tw th).scale) / 2 ∧
      (computeDrawTransform sw sh tw th).dy =
        ((sh : ℚ) - (th : ℚ) * (computeDrawTransform sw sh tw th).scale) / 2 ∧
      (computeDrawTransform sw sh tw th).dx ≤ 0 ∧
      (computeDrawTransform sw sh tw th).dy ≤ 0 ∧
      ((computeDrawTransform sw sh tw th).dx = 0 ∨
        (computeDrawTransform sw sh tw th).dy = 0)) := by
  refine ⟨by decide, by decide, by decide, ?_⟩
  intro sw sh tw th htw hth
  have ctw : (0 : ℚ) < (tw : ℚ) := by exact_mod_cast htw
  have cth : (0 : ℚ) < (th : ℚ) := by exact_mod_cast hth
  simp only [computeDrawTransform]
  refine ⟨trivial, trivial, trivial, ?_, ?_, ?_⟩
  · have h1 : (sw : ℚ) / tw ≤ max ((sw : ℚ) / tw) ((sh : ℚ) / th) := le_max_left _ _
    have h2 : (sw : ℚ) ≤ max ((sw : ℚ) / tw) ((sh : ℚ) / th) * tw := (div_le_iff ctw).1 h1
    linarith
  · have h1 : (sh : ℚ) / th ≤ max ((sw : ℚ) / tw) ((sh : ℚ) / th) := le_max_right _ _
    have h2 : (sh : ℚ) ≤ max ((sw : ℚ) / tw) ((sh : ℚ) / th) * th := (div_le_iff cth).1 h1
    linarith
  · rcases max_choice ((sw : ℚ) / tw) ((sh : ℚ) / th) with h | h
    · left
      rw [h]
      field_simp
    · right
      rw [h]
      field_simp

theorem c4_draw_transform_witness :
    (computeDrawTransform 1024 768 500 500).scale =
      max ((1024 : ℚ) / (500 : ℚ)) ((768 : ℚ) / (500 : ℚ)) ∧
    (computeDrawTransform 1024 768 500 500).dx =
      ((1024 : ℚ) - (500 : ℚ) * (computeDrawTransform 1024 768 500 500).scale) / 2 ∧
    (computeDrawTransform 1024 768 500 500).dy =
      ((768 : ℚ) - (500 : ℚ) * (computeDrawTransform 1024 768 500 500).scale) / 2 ∧
    (computeDrawTransform 1024 768 500 500).dx ≤ 0 ∧
    (computeDrawTransform 1024 768 500 500).dy ≤ 0 ∧
    ((computeDrawTransform 1024 768 500 500).dx = 0 ∨
      (computeDrawTransform 1024 768 500 500).dy = 0) :=
  c4_draw_transform.2.2.2 1024 768 500 500 (by decide) (by decide)

/-- C4 counterexample: at screen 1024x768 with tile 500x500 the claim
asserts offsetY = 0 with offsetX the only nonzero offset, but the code
yields offsetX = 0 and offsetY = -128: the x axis is the one covered
exactly (1024/500 > 768/500). -/
theorem c4_offset_axes_counterexample :
    (computeDrawTransform 1024 768 500 500).dy ≠ 0 ∧
    (computeDrawTransform 1024 768 500 500).dx = 0 ∧
    (computeDrawTransform 1024 768 500 500).dy = -128 := by
  decide

/-- C6: the startup tile derivation computes cols = ceil(bgWidth/512) (and
rows likewise), then tileW = bgWidth / cols by integer division - for any
positive dimension the quotient is already positive, so the non-positive
fallback never fires there, while a zero dimension takes the guard and the
fallback; in particular 2000 gives cols 4 and tile 500, and 1000 gives
cols 2 and tile 500. -/
theorem c6_tile_size_derivation :
    (∀ d : Nat, 1 ≤ d →
      (deriveCols d : Int) = ⌈(d : ℚ) / 512⌉ ∧
      deriveTile d = d / deriveCols d ∧ 1 ≤ deriveTile d) ∧
    deriveCols 0 = 1 ∧ deriveTile 0 = 0 ∧
    deriveCols 2000 = 4 ∧ deriveTile 2000 = 500 ∧
    deriveCols 1000 = 2 ∧ deriveTile 1000 = 500 := by
  refine ⟨?_, by decide, by decide, by decide, by decide, by decide, by decide⟩
  intro d hd
  have hc : deriveCols d = (d + 512 - 1) / 512 := by
    unfold deriveCols
    dsimp only
    rw [if_neg]
    omega
  have hcle : deriveCols d ≤ d := by rw [hc]; omega
  have hcpos : 0 < deriveCols d := by rw [hc]; omega
  have hq1 : 1 ≤ d / deriveCols d := (Nat.one_le_div_iff hcpos).2 hcle
  have ht : deriveTile d = d / deriveCols d := by
    unfold deriveTile
    dsimp only
    rw [if_neg]
    omega
  refine ⟨?_, ht, ht ▸ hq1⟩
  obtain ⟨c, hcdef⟩ : ∃ c : Nat, c = (d + 512 - 1) / 512 := ⟨_, rfl⟩
  have h1 : d ≤ 512 * c := by omega
  have h2 : 512 * c < d + 512 := by omega
  rw [hc, ← hcdef, eq_comm, Int.ceil_eq_iff]
  constructor
  · rw [lt_div_iff (by norm_num : (0 : ℚ) < 512)]
    have h2' := (Nat.cast_lt (α := ℚ)).2 h2
    push_cast at h2' ⊢
    linarith
  · rw [div_le_iff (by norm_num : (0 : ℚ) < 512)]
    have h1' := (Nat.cast_le (α := ℚ)).2 h1
    push_cast at h1' ⊢
    linarith

theorem c6_tile_size_derivation_witness :
    (deriveCols 2000 : Int) = ⌈(2000 : ℚ) / 512⌉ ∧
    deriveTile 2000 = 2000 / deriveCols 2000 ∧ 1 ≤ deriveTile 2000 :=
  c6_tile_size_derivation.1 2000 (by decide)

end Hyrule
